import Mathlib

/-!
Shallow embedding of the ADRES-Scraper v2.0 core pipeline
(`src/adres_scraper/core/content_analyzer.py`,
`src/adres_scraper/core/scraper.py`, defaults from
`src/adres_scraper/config/settings.py`), together with theorems settling
the specification claims about it.

Python strings are modelled as Lean `String` / `List Char`; Python floats
as `ℚ` (the analyzer only compares and assigns literal constants, so no
rounding behaviour is observable at the claim boundaries); `re` word
boundaries (`\b`) and the norm-number patterns are modelled character by
character; the scraper's side effects (sleeps and HTTP calls) are
modelled as an explicit event trace, with the HTTP layer injected as a
function from attempt index to outcome.  Whitespace (for `str.split`,
`str.strip` and regex `\s`) is modelled by `Char.isWhitespace`
(space, tab, CR, LF), which covers every whitespace character occurring
in the claims.
-/

namespace AdresScraper

/-! ## Character-level utilities (model of Python `re` / `str` behaviour) -/

/-- Model of a regex word character (`\w`): ASCII alphanumerics, underscore,
and (approximating Python's unicode `\w`) every non-ASCII character.
All non-ASCII characters occurring in this repository's vocabularies are
accented letters, which Python counts as word characters. -/
def isWordChar (c : Char) : Bool :=
  c.isAlphanum || c == '_' || 127 < c.toNat

/-- Whether the first list is an initial segment of the second. -/
def leadsWith : List Char → List Char → Bool
  | [], _ => true
  | _ :: _, [] => false
  | a :: as, b :: bs => a == b && leadsWith as bs

/-- Word boundary to the left of the current position: start of text or a
preceding non-word character. -/
def boundaryBefore : Option Char → Bool
  | none => true
  | some c => !isWordChar c

/-- Word boundary to the right of a match: end of text or a following
non-word character. -/
def boundaryAfter : List Char → Bool
  | [] => true
  | c :: _ => !isWordChar c

/-- Model of `len(re.findall(r'\b' + re.escape(kw) + r'\b', s))`: scan left
to right, counting non-overlapping occurrences of `kw` flanked by word
boundaries; after a match the scan resumes right after it.  The fuel
argument (instantiated with the length of the text, which bounds the
number of scan steps) makes the recursion structural. -/
def countKwFuel (kw : List Char) : Nat → Option Char → List Char → Nat
  | 0, _, _ => 0
  | _ + 1, _, [] => 0
  | fuel + 1, prev, c :: rest =>
    if (!kw.isEmpty) && boundaryBefore prev && leadsWith kw (c :: rest)
        && boundaryAfter ((c :: rest).drop kw.length) then
      1 + countKwFuel kw fuel kw.getLast? ((c :: rest).drop kw.length)
    else
      countKwFuel kw fuel (some c) rest

/-- Lower-cased character sequence of a string (model of Python
`str.lower()`; `Char.toLower` lower-cases exactly the ASCII range, which
covers every capitalisation occurring in the claims). -/
def lowerChars (s : String) : List Char :=
  s.data.map Char.toLower

/-- Occurrences of keyword `kw` in `text`, counted as
`content_analyzer.py` does: both sides lower-cased, word-boundary-exact,
non-overlapping. -/
def countKeyword (kw text : String) : Nat :=
  countKwFuel (lowerChars kw) (lowerChars text).length none (lowerChars text)

/-- Model of Python `str.split()` with no argument: maximal runs of
non-whitespace characters.  The accumulator holds the current word
reversed. -/
def pyWordsAux : List Char → List Char → List (List Char)
  | [], acc => if acc.isEmpty then [] else [acc.reverse]
  | c :: rest, acc =>
    if c.isWhitespace then
      if acc.isEmpty then pyWordsAux rest [] else acc.reverse :: pyWordsAux rest []
    else
      pyWordsAux rest (c :: acc)

/-- Whitespace-separated words of a text (`text.split()` in the source). -/
def pyWords (text : String) : List (List Char) :=
  pyWordsAux text.data []

/-! ## Content analyzer (`content_analyzer.py`) -/

/-- ADRES-specific vocabulary (`ContentAnalyzer.__init__`,
`self.adres_keywords`). -/
def adres_keywords : List String :=
  ["adres", "administradora", "recursos", "seguridad social",
   "salud", "resolución", "concepto", "normograma",
   "eps", "ips", "prestadores", "afiliados", "cobertura",
   "pago", "reclamaciones", "tutela", "derecho", "fundamental"]

/-- Legal vocabulary (`ContentAnalyzer.__init__`, `self.legal_keywords`). -/
def legal_keywords : List String :=
  ["decreto", "ley", "resolución", "circular", "concepto",
   "jurisprudencia", "normativa", "reglamento", "disposición",
   "artículo", "parágrafo", "inciso", "literal"]

/-- Result shape of `ContentAnalyzer._find_adres_keywords`. -/
structure KeywordFinding where
  palabras_encontradas : List (String × Nat)
  total_coincidencias : Nat
  densidad_keywords : ℚ
deriving DecidableEq

/-- Embedding of `ContentAnalyzer._find_adres_keywords`: per-keyword
counts kept only when positive (in vocabulary order, matching dict
insertion order), their total, and density = total / word count × 100
(0 when the text has no words). -/
def findAdresKeywords (text : String) : KeywordFinding :=
  let found := (adres_keywords.map (fun kw => (kw, countKeyword kw text))).filter
    (fun p => 0 < p.2)
  let total := (found.map (fun p => p.2)).sum
  let wc := (pyWords text).length
  { palabras_encontradas := found
    total_coincidencias := total
    densidad_keywords := if wc = 0 then 0 else ((total : ℚ) / (wc : ℚ)) * 100 }

/-- Drop a literal character sequence from the front of a list, failing
when it is not there. -/
def dropLead : List Char → List Char → Option (List Char)
  | [], s => some s
  | _ :: _, [] => none
  | a :: as, b :: bs => if a == b then dropLead as bs else none

/-- Consume one or more whitespace characters (`\s+`), greedily. -/
def skipWs1 : List Char → Option (List Char)
  | [] => none
  | c :: rest => if c.isWhitespace then some (rest.dropWhile Char.isWhitespace) else none

/-- Whether the remaining text starts with a digit (first character of
`\d+`). -/
def startsWithDigit : List Char → Bool
  | [] => false
  | c :: _ => c.isDigit

/-- Whether the norm pattern `kw + r'\s+(?:número\s+)?(\d+)'` (from
`_find_legal_keywords`'s `norm_patterns`) matches at the start of `s`.
The optional greedy group is equivalent, for match existence, to trying
the direct-digit and the `número`-then-digit alternatives. -/
def matchNormAt (kw : List Char) (s : List Char) : Bool :=
  match dropLead kw s with
  | none => false
  | some r1 =>
    match skipWs1 r1 with
    | none => false
    | some r2 =>
      startsWithDigit r2 ||
      (match dropLead "número".data r2 with
       | none => false
       | some r3 =>
         match skipWs1 r3 with
         | none => false
         | some r4 => startsWithDigit r4)

/-- Whether the norm pattern for `kw` matches anywhere in the lower-cased
text (model of `re.findall(pattern, text_lower)` being non-empty; note the
patterns carry no leading `\b`, so a match may start mid-word, as in the
source). -/
def hasNormMatch (kw : String) (textLower : List Char) : Bool :=
  textLower.tails.any (fun t => matchNormAt kw.data t)

/-- Norm-pattern table of `_find_legal_keywords` (`norm_patterns`):
category name and the literal keyword its regex starts with. -/
def norm_patterns : List (String × String) :=
  [("resoluciones", "resolución"), ("decretos", "decreto"),
   ("leyes", "ley"), ("articulos", "artículo")]

/-- Result shape of `ContentAnalyzer._find_legal_keywords`.
`normas_identificadas` keeps the categories with at least one match (the
keys of the Python dict, in table order); the per-category de-duplicated
number lists are not modelled since nothing in the program reads them —
the classifier only tests the dict for non-emptiness. -/
structure LegalFinding where
  terminos_legales : List (String × Nat)
  normas_identificadas : List String
deriving DecidableEq

/-- Embedding of `ContentAnalyzer._find_legal_keywords`. -/
def findLegalKeywords (text : String) : LegalFinding :=
  let tl := lowerChars text
  let found := (legal_keywords.map
      (fun kw => (kw, countKwFuel (lowerChars kw) tl.length none tl))).filter
    (fun p => 0 < p.2)
  let norms := (norm_patterns.filter (fun p => hasNormMatch p.2 tl)).map (fun p => p.1)
  { terminos_legales := found, normas_identificadas := norms }

/-- Result shape of `ContentAnalyzer._classify_document` (the
`criterios_clasificacion` sub-dict is inlined as the last three fields).
In `_create_empty_analysis` the Python dict carries only the first three
keys; the remaining fields are filled with defaults there. -/
structure Clasificacion where
  tipo_documento : String
  confianza : ℚ
  es_documento_adres : Bool
  es_documento_legal : Bool
  densidad_adres : ℚ
  terminos_legales : Nat
  tiene_normas : Bool
deriving DecidableEq

/-- Embedding of `ContentAnalyzer._classify_document`, as a function of
the three quantities the Python code reads from the analysis dict:
ADRES-keyword density, number of distinct legal terms found, and whether
any norm number was identified. -/
def classifyDocument (adres_density : ℚ) (legal_terms : Nat) (has_norms : Bool) :
    Clasificacion :=
  let tc : String × ℚ :=
    if 2 < adres_density ∧ 3 < legal_terms then ("documento_normativo_adres", 9/10)
    else if 1 < adres_density then ("documento_adres", 7/10)
    else if 2 < legal_terms ∨ has_norms then ("documento_legal", 6/10)
    else ("documento_general", 1/2)
  { tipo_documento := tc.1
    confianza := tc.2
    es_documento_adres := decide ((1 : ℚ)/2 < adres_density)
    es_documento_legal := decide (1 < legal_terms) || has_norms
    densidad_adres := adres_density
    terminos_legales := legal_terms
    tiene_normas := has_norms }

/-- Analysis record assembled by `ContentAnalyzer.analyze_content`.  The
basic statistics, document-structure heuristics and extraction metadata
(which carries a wall-clock timestamp) are not modelled: no claim and no
downstream code path reads them. -/
structure Analysis where
  palabras_clave_adres : KeywordFinding
  palabras_clave_legales : LegalFinding
  clasificacion : Clasificacion
deriving DecidableEq

/-- Classification part of `_create_empty_analysis` (the Python dict has
only `tipo_documento`, `confianza` and `es_documento_adres`; the
remaining fields take defaults here). -/
def emptyClasificacion : Clasificacion :=
  { tipo_documento := "documento_vacio"
    confianza := 0
    es_documento_adres := false
    es_documento_legal := false
    densidad_adres := 0
    terminos_legales := 0
    tiene_normas := false }

/-- Embedding of `ContentAnalyzer._create_empty_analysis` (projected onto
the modelled fields; the Python empty dict omits `densidad_keywords`,
rendered here as 0, and is never read by the classifier). -/
def createEmptyAnalysis : Analysis :=
  { palabras_clave_adres :=
      { palabras_encontradas := [], total_coincidencias := 0, densidad_keywords := 0 }
    palabras_clave_legales := { terminos_legales := [], normas_identificadas := [] }
    clasificacion := emptyClasificacion }

/-- Embedding of `ContentAnalyzer.analyze_content`: Python's
`not text or not text.strip()` is exactly "every character is
whitespace" (true for the empty string). -/
def analyzeContent (text : String) : Analysis :=
  if text.data.all Char.isWhitespace then createEmptyAnalysis
  else
    let adres := findAdresKeywords text
    let legal := findLegalKeywords text
    { palabras_clave_adres := adres
      palabras_clave_legales := legal
      clasificacion := classifyDocument adres.densidad_keywords
        legal.terminos_legales.length (!legal.normas_identificadas.isEmpty) }

/-! ## Configuration (`config/settings.py` defaults) -/

/-- Embedding of `EthicalConfig` (fields the core pipeline reads). -/
structure EthicalConfig where
  delay_between_requests : ℚ := 3
  max_retries : Nat := 3

/-- Embedding of `ScrapingConfig` (fields the core pipeline reads). -/
structure ScrapingConfig where
  allowed_domains : List String := ["normograma.adres.gov.co", "adres.gov.co"]
  max_content_size : Nat := 10 * 1024 * 1024

/-- Embedding of `Config` (the sub-configurations the scraper reads). -/
structure Config where
  ethical : EthicalConfig := {}
  scraping : ScrapingConfig := {}

/-! ## HTML model (BeautifulSoup as used by `scraper.py`) -/

/-- Attributes of an HTML element, restricted to the two kinds the
selectors inspect: the `id` attribute and the class list. -/
structure Attrs where
  idAttr : Option String := none
  classes : List String := []

/-- Parsed HTML node: an element with tag, attributes and children, or a
text run.  A document is the list of its top-level nodes. -/
inductive Node where
  | elem (tag : String) (attrs : Attrs) (children : List Node)
  | text (s : String)

/-- Model of Python `str.strip()`. -/
def pyStrip (s : String) : String :=
  String.mk (((s.data.dropWhile Char.isWhitespace).reverse.dropWhile
    Char.isWhitespace).reverse)

mutual

/-- Stripped, non-empty text runs of a node in document order (the pieces
BeautifulSoup's `get_text(separator, strip=True)` joins). -/
def strippedTexts : Node → List String
  | .text s => if pyStrip s == "" then [] else [pyStrip s]
  | .elem _ _ children => strippedTextsList children

/-- `strippedTexts` over a list of sibling nodes. -/
def strippedTextsList : List Node → List String
  | [] => []
  | n :: rest => strippedTexts n ++ strippedTextsList rest

end

/-- Whether an element satisfies a `soup.find(tag, attrs)` query:
tag equal, required id equal, required class contained in the class list
(BeautifulSoup matches a class query against any of the element's
classes).  Text runs never match. -/
def nodeMatches (tag : String) (reqId : Option String) (reqClass : Option String) :
    Node → Bool
  | .elem t a _ =>
    t == tag &&
    (match reqId with
     | none => true
     | some i => a.idAttr == some i) &&
    (match reqClass with
     | none => true
     | some c => a.classes.contains c)
  | .text _ => false

mutual

/-- First node in pre-order (the node itself, then its children left to
right) satisfying the predicate — BeautifulSoup's `find` order. -/
def findNode (p : Node → Bool) : Node → Option Node
  | .text s => if p (.text s) then some (.text s) else none
  | .elem t a children =>
    if p (.elem t a children) then some (.elem t a children)
    else findNodeList p children

/-- `findNode` over sibling nodes left to right. -/
def findNodeList (p : Node → Bool) : List Node → Option Node
  | [] => none
  | n :: rest =>
    match findNode p n with
    | some r => some r
    | none => findNodeList p rest

end

/-- One selector rule of `_find_main_container`: tag plus optional
required id or class. -/
structure Selector where
  tag : String
  reqId : Option String := none
  reqClass : Option String := none

/-- The ordered selector list of `ADREScraper._find_main_container`. -/
def selectors : List Selector :=
  [{ tag := "main" },
   { tag := "article" },
   { tag := "div", reqId := some "content" },
   { tag := "div", reqClass := some "content" },
   { tag := "div", reqClass := some "main-content" },
   { tag := "div", reqClass := some "document-content" },
   { tag := "div", reqClass := some "texto-concepto" },
   { tag := "div", reqClass := some "contenido-normograma" },
   { tag := "section" },
   { tag := "div", reqId := some "container" },
   { tag := "div", reqClass := some "container" }]

/-- `soup.find(...)` for one selector over a whole document. -/
def soupFind (doc : List Node) (sel : Selector) : Option Node :=
  findNodeList (nodeMatches sel.tag sel.reqId sel.reqClass) doc

/-- Selector loop of `_find_main_container`: for each rule in order, take
that rule's first match; accept it when its stripped text is non-empty,
otherwise move to the next rule; after the last rule, fall back to
`soup.find('body')`. -/
def findMainContainerGo (doc : List Node) : List Selector → Option Node
  | [] => soupFind doc { tag := "body" }
  | sel :: rest =>
    match soupFind doc sel with
    | some c => if (strippedTexts c).isEmpty then findMainContainerGo doc rest else some c
    | none => findMainContainerGo doc rest

/-- Embedding of `ADREScraper._find_main_container`. -/
def findMainContainer (doc : List Node) : Option Node :=
  findMainContainerGo doc selectors

/-- Tags removed by `_extract_clean_text` before taking text. -/
def unwanted_elements : List String :=
  ["script", "style", "nav", "header", "footer", "aside", "noscript"]

mutual

/-- Remove (`decompose`) all elements with unwanted tags from a subtree. -/
def removeUnwanted : Node → Option Node
  | .text s => some (.text s)
  | .elem t a children =>
    if unwanted_elements.contains t then none
    else some (.elem t a (removeUnwantedList children))

/-- `removeUnwanted` over sibling nodes. -/
def removeUnwantedList : List Node → List Node
  | [] => []
  | n :: rest =>
    match removeUnwanted n with
    | some m => m :: removeUnwantedList rest
    | none => removeUnwantedList rest

end

/-- Model of Python `str.split('\n')`: split at every newline, keeping
empty pieces.  The accumulator holds the current piece reversed. -/
def splitNewlines : List Char → List Char → List String
  | [], acc => [String.mk acc.reverse]
  | c :: rest, acc =>
    if c == '\n' then String.mk acc.reverse :: splitNewlines rest []
    else splitNewlines rest (c :: acc)

/-- Embedding of `ADREScraper._extract_clean_text`: decompose unwanted
descendants, take `get_text(separator='\n', strip=True)`, then re-split
on newlines, strip every line, drop empties and re-join with single
newlines.  The container keeps its own tag (`find_all` only visits
descendants). -/
def extractCleanText (container : Node) : String :=
  let cleaned : Node :=
    match container with
    | .elem t a children => .elem t a (removeUnwantedList children)
    | .text s => .text s
  let raw := "\n".intercalate (strippedTexts cleaned)
  let lines := ((splitNewlines raw.data []).map pyStrip).filter (fun l => l ≠ "")
  "\n".intercalate lines

/-! ## URL validation (`ADREScraper._validate_url`) -/

/-- Whether a character may occur in a URL scheme after the first
(`urllib.parse` accepts alphanumerics and `+`, `-`, `.`). -/
def isSchemeChar (c : Char) : Bool :=
  c.isAlphanum || c == '+' || c == '-' || c == '.'

/-- Scan scheme characters up to a colon, returning what follows the
colon; fails when a non-scheme character appears first. -/
def schemeRestGo : List Char → Option (List Char)
  | [] => none
  | ':' :: rest => some rest
  | c :: rest => if isSchemeChar c then schemeRestGo rest else none

/-- Strip a leading `scheme:` (first character alphabetic, then scheme
characters up to `:`), as `urllib.parse.urlparse` does; left unchanged
when no scheme is present. -/
def afterScheme (s : List Char) : List Char :=
  match s with
  | [] => []
  | c :: rest =>
    if c.isAlpha then
      match schemeRestGo rest with
      | some r => r
      | none => s
    else s

/-- Network-location component of a URL, as `urlparse(url).netloc`:
present only when `//` follows the optional scheme, and then running up
to the next `/`, `?` or `#`. -/
def netloc (url : String) : String :=
  match afterScheme url.data with
  | '/' :: '/' :: rest =>
    String.mk (rest.takeWhile (fun c => !(c == '/' || c == '?' || c == '#')))
  | _ => ""

/-- Whether `needle` occurs as a contiguous substring of the character
list (Python's `in` on strings). -/
def containsSub (needle : List Char) : List Char → Bool
  | [] => leadsWith needle []
  | c :: rest => leadsWith needle (c :: rest) || containsSub needle rest

/-- Embedding of `ADREScraper._validate_url`:
`any(domain in parsed_url.netloc for domain in allowed_domains)`. -/
def validateUrl (cfg : Config) (url : String) : Bool :=
  cfg.scraping.allowed_domains.any (fun d => containsSub d.data (netloc url).data)

/-! ## Fetch loop and result envelope (`ADREScraper.scrape_document`) -/

/-- HTTP response as the pipeline reads it: parsed document, body size
(`len(response.content)`) and status code. -/
structure Response where
  body : List Node
  content_size : Nat
  status_code : Nat := 200

/-- Outcome of one `session.get` call: a response delivered, a non-2xx
status (`raise_for_status` raising `RequestException`), or a transport
failure (`RequestException` from the request itself). -/
inductive AttemptOutcome where
  | ok (resp : Response)
  | httpStatusError
  | transportError

/-- Observable side effects of a scrape: a `time.sleep(seconds)` call or
an HTTP request to a URL. -/
inductive Event where
  | sleep (seconds : ℚ)
  | request (url : String)
deriving DecidableEq

/-- Whether an event is an HTTP request. -/
def isRequestEvent : Event → Bool
  | .request _ => true
  | .sleep _ => false

/-- Embedding of `ADREScraper._make_request` given the outcome of the
underlying HTTP call: transport and status failures are swallowed to
`None`, and a delivered response whose body exceeds
`max_content_size` raises `ValueError`, equally swallowed to `None`. -/
def makeRequest (cfg : Config) (outcome : AttemptOutcome) : Option Response :=
  match outcome with
  | .ok resp =>
    if cfg.scraping.max_content_size < resp.content_size then none else some resp
  | .httpStatusError => none
  | .transportError => none

/-- Result envelope of one scrape.  The Python code builds one of two
dict shapes (success in `_process_response`, error in
`_create_error_response`); timestamp fields are not modelled. -/
inductive ScrapeResult where
  | ok (url_original : String) (texto_completo : String)
      (longitud_caracteres longitud_palabras : Nat)
      (intentos_realizados : Nat) (analisis_contenido : Analysis)
      (content_length : Nat)
  | error (url_original : String) (error_type : String) (error_message : String)

/-- Embedding of `ADREScraper._create_error_response` (argument order as
in the Python signature: url, message, type). -/
def createErrorResponse (url error_message error_type : String) : ScrapeResult :=
  .error url error_type error_message

/-- Status field of the result envelope. -/
def ScrapeResult.status : ScrapeResult → String
  | .ok .. => "OK"
  | .error .. => "ERROR"

/-- Attempt count of a successful envelope. -/
def ScrapeResult.intentos : ScrapeResult → Option Nat
  | .ok _ _ _ _ n _ _ => some n
  | .error .. => none

/-- Error kind of a failed envelope. -/
def ScrapeResult.errorType : ScrapeResult → Option String
  | .ok .. => none
  | .error _ t _ => some t

/-- Embedding of `ADREScraper._process_response`: resolve the main
container (falling back to `body`); without one, a `parsing_error`
envelope; otherwise extract clean text, analyze it, and build the
success envelope with the attempt count. -/
def processResponse (resp : Response) (url : String) (attempts : Nat) : ScrapeResult :=
  match findMainContainer resp.body with
  | none =>
    createErrorResponse url
      "No se pudo encontrar el contenedor principal de contenido" "parsing_error"
  | some container =>
    let t := extractCleanText container
    .ok url t t.length (pyWords t).length attempts (analyzeContent t) resp.content_size

/-- Sleep length of one loop iteration in `scrape_document`: the
ethical pre-delay `delay_between_requests` on attempt 0, the exponential
backoff `delay_between_requests * 2 ** attempt` on retries (the inlined
`if attempt > 0` expression of the source, factored out). -/
def attemptDelay (cfg : Config) (attempt : Nat) : ℚ :=
  if 0 < attempt then cfg.ethical.delay_between_requests * 2 ^ attempt
  else cfg.ethical.delay_between_requests

/-- Retry loop of `ADREScraper.scrape_document`
(`for attempt in range(max_retries + 1)`), with the HTTP layer injected
as `env : Nat → AttemptOutcome` (outcome of the call made on each
attempt index).  Every iteration sleeps `attemptDelay`, then issues the
request; a delivered, size-checked response is processed and returned;
otherwise the loop continues, and on exhaustion the `unknown_error`
envelope is returned.  (`time.sleep` and `_make_request` never raise,
and `_process_response` catches its own exceptions, so the
`extraction_error` handler in the Python loop is unreachable and not
modelled.) -/
def scrapeAttempts (cfg : Config) (env : Nat → AttemptOutcome) (url : String) :
    Nat → Nat → ScrapeResult × List Event
  | _, 0 => (createErrorResponse url "Error desconocido" "unknown_error", [])
  | attempt, remaining + 1 =>
    match makeRequest cfg (env attempt) with
    | some resp =>
      (processResponse resp url (attempt + 1),
       [.sleep (attemptDelay cfg attempt), .request url])
    | none =>
      let next := scrapeAttempts cfg env url (attempt + 1) remaining
      (next.1, .sleep (attemptDelay cfg attempt) :: .request url :: next.2)

/-- Embedding of `ADREScraper.scrape_document`: validate the URL first
(returning the `validation_error` envelope with no side effects at all
when it fails), then run the retry loop. -/
def scrapeDocument (cfg : Config) (env : Nat → AttemptOutcome) (url : String) :
    ScrapeResult × List Event :=
  if validateUrl cfg url then scrapeAttempts cfg env url 0 (cfg.ethical.max_retries + 1)
  else (createErrorResponse url "URL no válida o dominio no permitido" "validation_error", [])

/-- Embedding of `ADREScraper.scrape_multiple_documents`: scrape each
URL in turn (each with its own injected HTTP layer), collecting every
envelope, and sleep the ethical delay after each document except the
last. -/
def scrapeMultipleDocuments (cfg : Config) :
    List (String × (Nat → AttemptOutcome)) → List ScrapeResult × List Event
  | [] => ([], [])
  | [(u, e)] =>
    let r := scrapeDocument cfg e u
    ([r.1], r.2)
  | (u, e) :: x :: rest =>
    let r := scrapeDocument cfg e u
    let rs := scrapeMultipleDocuments cfg (x :: rest)
    (r.1 :: rs.1, r.2 ++ Event.sleep cfg.ethical.delay_between_requests :: rs.2)

/-- Whether an attempt outcome is a delivered response whose body
exceeds the configured maximum (the `oversized` case of the spec). -/
def isOversized (cfg : Config) (o : AttemptOutcome) : Bool :=
  match o with
  | .ok r => decide (cfg.scraping.max_content_size < r.content_size)
  | .httpStatusError => false
  | .transportError => false

/-- Restatement of the container-resolution rule in the specification's
words, for comparison with the embedded `findMainContainer`: the first
selector rule (in the fixed order) whose first match has non-empty
stripped text yields that match; when no rule yields one, the `body`
element. -/
def resolveMainContainerSpec (doc : List Node) : Option Node :=
  match selectors.findSome?
      (fun sel => (soupFind doc sel).filter (fun c => !(strippedTexts c).isEmpty)) with
  | some c => some c
  | none => soupFind doc { tag := "body" }

/-! ## Concrete artefacts used by witnesses and counterexamples -/

/-- Document holding both a `<main>` and a `<div class="content">`, each
with non-empty text. -/
def doc6 : List Node :=
  [.elem "html" {} [.elem "body" {}
    [.elem "main" {} [.text "Contenido principal"],
     .elem "div" { classes := ["content"] } [.text "Otro contenido"]]]]

/-- The `<main>` element of `doc6`. -/
def mainElem6 : Node :=
  .elem "main" {} [.text "Contenido principal"]

/-- A small, well-formed response (within the size limit). -/
def goodResponse : Response :=
  { body := doc6, content_size := 500 }

/-- A response whose body exceeds the default 10 MiB limit by one byte. -/
def oversizedResponse : Response :=
  { body := doc6, content_size := 10 * 1024 * 1024 + 1 }

/-- HTTP layer that fails twice (transport, then HTTP status) and then
delivers `goodResponse`. -/
def envFailTwice : Nat → AttemptOutcome
  | 0 => .transportError
  | 1 => .httpStatusError
  | _ => .ok goodResponse

/-- HTTP layer that always delivers an oversized response. -/
def envAllOversized : Nat → AttemptOutcome := fun _ => .ok oversizedResponse

/-- HTTP layer whose first response is oversized and whose later
responses are good. -/
def envOversizedThenGood : Nat → AttemptOutcome
  | 0 => .ok oversizedResponse
  | _ => .ok goodResponse

/-- HTTP layer that always fails with a non-2xx status. -/
def envAllHttpFail : Nat → AttemptOutcome := fun _ => .httpStatusError

/-- An allowed URL used by concrete runs. -/
def urlOk : String := "https://normograma.adres.gov.co/compilacion/docs/doc.html"

/-- A URL whose host matches no allowed domain. -/
def urlBad : String := "https://evil.example.com/doc"

/-! ## Helper lemmas -/

theorem validateUrl_eq_false {cfg : Config} {url : String}
    (h : ∀ d ∈ cfg.scraping.allowed_domains, containsSub d.data (netloc url).data = false) :
    validateUrl cfg url = false := by
  simp only [validateUrl, List.any_eq_false]
  intro d hd
  simp [h d hd]

theorem scrapeDocument_invalid (cfg : Config) (env : Nat → AttemptOutcome) (url : String)
    (h : validateUrl cfg url = false) :
    scrapeDocument cfg env url =
      (createErrorResponse url "URL no válida o dominio no permitido" "validation_error",
       []) := by
  simp [scrapeDocument, h]

theorem makeRequest_of_oversized {cfg : Config} {o : AttemptOutcome}
    (h : isOversized cfg o = true) : makeRequest cfg o = none := by
  cases o with
  | ok r =>
    simp only [isOversized, decide_eq_true_eq] at h
    simp [makeRequest, h]
  | httpStatusError => rfl
  | transportError => rfl

theorem scrapeAttempts_step_some (cfg : Config) (env : Nat → AttemptOutcome) (url : String)
    (att rem : Nat) (resp : Response) (h : makeRequest cfg (env att) = some resp) :
    scrapeAttempts cfg env url att (rem + 1) =
      (processResponse resp url (att + 1),
       [Event.sleep (attemptDelay cfg att), Event.request url]) := by
  simp [scrapeAttempts, h]

theorem scrapeAttempts_step_none (cfg : Config) (env : Nat → AttemptOutcome) (url : String)
    (att rem : Nat) (h : makeRequest cfg (env att) = none) :
    scrapeAttempts cfg env url att (rem + 1) =
      ((scrapeAttempts cfg env url (att + 1) rem).1,
       Event.sleep (attemptDelay cfg att) :: Event.request url ::
         (scrapeAttempts cfg env url (att + 1) rem).2) := by
  simp [scrapeAttempts, h]

theorem scrapeAttempts_fail_fst (cfg : Config) (env : Nat → AttemptOutcome) (url : String)
    (h : ∀ i, makeRequest cfg (env i) = none) :
    ∀ rem att, (scrapeAttempts cfg env url att rem).1 =
      createErrorResponse url "Error desconocido" "unknown_error" := by
  intro rem
  induction rem with
  | zero => intro att; rfl
  | succ n ih =>
    intro att
    simp only [scrapeAttempts, h att]
    exact ih (att + 1)

theorem scrapeAttempts_fail_requests (cfg : Config) (env : Nat → AttemptOutcome) (url : String)
    (h : ∀ i, makeRequest cfg (env i) = none) :
    ∀ rem att, ((scrapeAttempts cfg env url att rem).2.filter isRequestEvent).length = rem := by
  intro rem
  induction rem with
  | zero => intro att; rfl
  | succ n ih =>
    intro att
    simp only [scrapeAttempts, h att, List.filter, isRequestEvent]
    simpa [isRequestEvent] using ih (att + 1)

/-! ## Claims -/

/-- C4: a URL whose network-location component contains none of the
allowed domain substrings yields the `validation_error` envelope
immediately, with an empty side-effect trace — zero network calls and
zero sleeps — whatever the HTTP layer and however large `max_retries`
is. -/
theorem adres_C4 (cfg : Config) (env : Nat → AttemptOutcome) (url : String)
    (h : ∀ d ∈ cfg.scraping.allowed_domains, containsSub d.data (netloc url).data = false) :
    scrapeDocument cfg env url =
      (createErrorResponse url "URL no válida o dominio no permitido" "validation_error",
       []) :=
  scrapeDocument_invalid cfg env url (validateUrl_eq_false h)

/-- C4 witness: the default configuration (whose `max_retries` is 3 > 0)
rejects `https://evil.example.com/doc` with `validation_error` and an
empty trace. -/
theorem adres_C4_witness :
    scrapeDocument {} envAllHttpFail "https://evil.example.com/doc" =
      (createErrorResponse "https://evil.example.com/doc"
        "URL no válida o dominio no permitido" "validation_error", []) :=
  adres_C4 {} envAllHttpFail "https://evil.example.com/doc" (by decide)

/-- C2 (amended): an oversized response is swallowed like any other
failed attempt and IS retried — when every attempt delivers an oversized
body, the loop runs all `max_retries + 1` attempts and returns the
`unknown_error` envelope, not a dedicated oversized failure. -/
theorem adres_C2 (cfg : Config) (env : Nat → AttemptOutcome) (url : String)
    (hv : validateUrl cfg url = true)
    (hov : ∀ i, isOversized cfg (env i) = true) :
    (scrapeDocument cfg env url).1 =
      createErrorResponse url "Error desconocido" "unknown_error" ∧
    ((scrapeDocument cfg env url).2.filter isRequestEvent).length =
      cfg.ethical.max_retries + 1 := by
  have hfail : ∀ i, makeRequest cfg (env i) = none :=
    fun i => makeRequest_of_oversized (hov i)
  constructor
  · simp [scrapeDocument, hv, scrapeAttempts_fail_fst cfg env url hfail]
  · simp [scrapeDocument, hv, scrapeAttempts_fail_requests cfg env url hfail]

/-- C2 counterexample: with the default configuration, a first attempt
whose response is one byte over the 10 MiB limit is followed by a retry
(two requests in the trace), and the scrape then succeeds — the claim's
"no retry is attempted" is false, and the oversized response is not
surfaced as the result. -/
theorem adres_C2_counterexample :
    isOversized {} (envOversizedThenGood 0) = true ∧
    ((scrapeDocument {} envOversizedThenGood urlOk).2.filter isRequestEvent).length = 2 ∧
    (scrapeDocument {} envOversizedThenGood urlOk).1.status = "OK" :=
  ⟨rfl, rfl, rfl⟩

/-- C2 witness: the amended behaviour at a concrete run in which every
attempt is oversized. -/
theorem adres_C2_witness :
    (scrapeDocument {} envAllOversized urlOk).1 =
      createErrorResponse urlOk "Error desconocido" "unknown_error" ∧
    ((scrapeDocument {} envAllOversized urlOk).2.filter isRequestEvent).length =
      ({} : Config).ethical.max_retries + 1 :=
  adres_C2 {} envAllOversized urlOk (by decide) (fun _ => rfl)

/-- C3 (amended): when every fetch attempt fails — whatever mix of
HTTP-status and transport failures — the returned envelope's error kind
is always `unknown_error`; the code never produces `http_error` or
`network_error`. -/
theorem adres_C3 (cfg : Config) (env : Nat → AttemptOutcome) (url : String)
    (hv : validateUrl cfg url = true)
    (hfail : ∀ i, makeRequest cfg (env i) = none) :
    (scrapeDocument cfg env url).1.errorType = some "unknown_error" := by
  simp [scrapeDocument, hv, scrapeAttempts_fail_fst cfg env url hfail,
    createErrorResponse, ScrapeResult.errorType]

/-- C3 counterexample: a concrete run whose attempts all fail with an
HTTP-status failure ends with error kind `unknown_error`, which is
neither `http_error` nor `network_error` as the claim requires. -/
theorem adres_C3_counterexample :
    (scrapeDocument {} envAllHttpFail urlOk).1.errorType = some "unknown_error" ∧
    "unknown_error" ≠ "http_error" ∧ "unknown_error" ≠ "network_error" :=
  ⟨rfl, by decide, by decide⟩

/-- C3 witness: the amended behaviour at the same concrete all-fail run. -/
theorem adres_C3_witness :
    (scrapeDocument {} envAllHttpFail urlOk).1.errorType = some "unknown_error" :=
  adres_C3 {} envAllHttpFail urlOk (by decide) (fun _ => rfl)

/-- C5: with `max_retries = 3`, against an allowed URL, when the request
fails twice and the third call delivers a processable response, the
scrape succeeds with `intentos_realizados = 3`, and the side-effect
trace is exactly the ethical pre-delay before the first attempt followed
by backoff waits `base * 2 ^ 1` and `base * 2 ^ 2` before the two
retries. -/
theorem adres_C5 (cfg : Config) (env : Nat → AttemptOutcome) (url : String)
    (resp : Response) (c : Node)
    (hretries : cfg.ethical.max_retries = 3)
    (hvalid : validateUrl cfg url = true)
    (h0 : makeRequest cfg (env 0) = none)
    (h1 : makeRequest cfg (env 1) = none)
    (h2 : makeRequest cfg (env 2) = some resp)
    (hcont : findMainContainer resp.body = some c) :
    (scrapeDocument cfg env url).1.status = "OK" ∧
    (scrapeDocument cfg env url).1.intentos = some 3 ∧
    (scrapeDocument cfg env url).2 =
      [Event.sleep cfg.ethical.delay_between_requests, Event.request url,
       Event.sleep (cfg.ethical.delay_between_requests * 2 ^ 1), Event.request url,
       Event.sleep (cfg.ethical.delay_between_requests * 2 ^ 2), Event.request url] := by
  have s2 : scrapeAttempts cfg env url 2 2 =
      (processResponse resp url 3,
       [Event.sleep (cfg.ethical.delay_between_requests * 2 ^ 2), Event.request url]) := by
    show scrapeAttempts cfg env url 2 (1 + 1) = _
    rw [scrapeAttempts_step_some cfg env url 2 1 resp h2]
    norm_num [attemptDelay]
  have s1 : scrapeAttempts cfg env url 1 3 =
      (processResponse resp url 3,
       [Event.sleep (cfg.ethical.delay_between_requests * 2 ^ 1), Event.request url,
        Event.sleep (cfg.ethical.delay_between_requests * 2 ^ 2), Event.request url]) := by
    show scrapeAttempts cfg env url 1 (2 + 1) = _
    rw [scrapeAttempts_step_none cfg env url 1 2 h1]
    norm_num [attemptDelay, s2]
  have s0 : scrapeAttempts cfg env url 0 4 =
      (processResponse resp url 3,
       [Event.sleep cfg.ethical.delay_between_requests, Event.request url,
        Event.sleep (cfg.ethical.delay_between_requests * 2 ^ 1), Event.request url,
        Event.sleep (cfg.ethical.delay_between_requests * 2 ^ 2), Event.request url]) := by
    show scrapeAttempts cfg env url 0 (3 + 1) = _
    rw [scrapeAttempts_step_none cfg env url 0 3 h0]
    norm_num [attemptDelay, s1]
  have key : scrapeDocument cfg env url =
      (processResponse resp url 3,
       [Event.sleep cfg.ethical.delay_between_requests, Event.request url,
        Event.sleep (cfg.ethical.delay_between_requests * 2 ^ 1), Event.request url,
        Event.sleep (cfg.ethical.delay_between_requests * 2 ^ 2), Event.request url]) := by
    unfold scrapeDocument
    rw [hvalid, hretries]
    simpa using s0
  refine ⟨?_, ?_, ?_⟩ <;> rw [key] <;>
    simp [processResponse, hcont, ScrapeResult.status, ScrapeResult.intentos]

/-- C5 witness: the default configuration (`max_retries = 3`,
`base = 3`) against an HTTP layer failing twice then delivering
`goodResponse`. -/
theorem adres_C5_witness :
    (scrapeDocument {} envFailTwice urlOk).1.status = "OK" ∧
    (scrapeDocument {} envFailTwice urlOk).1.intentos = some 3 ∧
    (scrapeDocument {} envFailTwice urlOk).2 =
      [Event.sleep ({} : Config).ethical.delay_between_requests, Event.request urlOk,
       Event.sleep (({} : Config).ethical.delay_between_requests * 2 ^ 1), Event.request urlOk,
       Event.sleep (({} : Config).ethical.delay_between_requests * 2 ^ 2), Event.request urlOk] :=
  adres_C5 {} envFailTwice urlOk goodResponse mainElem6
    rfl (by decide) rfl rfl rfl rfl

/-- C9: batch scraping returns one envelope per URL in input order
regardless of individual failures, and for every list of URLs the batch
trace is exactly the per-document traces intercalated with one ethical
inter-request sleep — between consecutive documents only, not before
the first and not after the last; in the three-URL run whose second URL
fails validation, the second envelope is the `validation_error` one and
the trace holds exactly the two inter-request sleeps around the
(side-effect-free) failed validation. -/
theorem adres_C9 :
    (∀ (cfg : Config) (items : List (String × (Nat → AttemptOutcome))),
      (scrapeMultipleDocuments cfg items).1 =
        items.map (fun p => (scrapeDocument cfg p.2 p.1).1)) ∧
    (∀ (cfg : Config) (items : List (String × (Nat → AttemptOutcome))),
      (scrapeMultipleDocuments cfg items).2 =
        List.intercalate [Event.sleep cfg.ethical.delay_between_requests]
          (items.map (fun p => (scrapeDocument cfg p.2 p.1).2))) ∧
    (∀ (cfg : Config) (ua : String) (ea : Nat → AttemptOutcome)
        (ub : String) (eb : Nat → AttemptOutcome)
        (uc : String) (ec : Nat → AttemptOutcome),
      validateUrl cfg ub = false →
      scrapeMultipleDocuments cfg [(ua, ea), (ub, eb), (uc, ec)] =
        ([(scrapeDocument cfg ea ua).1,
          createErrorResponse ub "URL no válida o dominio no permitido" "validation_error",
          (scrapeDocument cfg ec uc).1],
         (scrapeDocument cfg ea ua).2 ++
           Event.sleep cfg.ethical.delay_between_requests ::
           Event.sleep cfg.ethical.delay_between_requests ::
           (scrapeDocument cfg ec uc).2)) := by
  refine ⟨?_, ?_, ?_⟩
  · intro cfg items
    induction items with
    | nil => rfl
    | cons a rest ih =>
      cases rest with
      | nil => rfl
      | cons b rest2 =>
        obtain ⟨ua, ea⟩ := a
        obtain ⟨ub, eb⟩ := b
        simp [scrapeMultipleDocuments, ih]
  · intro cfg items
    induction items with
    | nil => rfl
    | cons a rest ih =>
      cases rest with
      | nil =>
        obtain ⟨ua, ea⟩ := a
        simp [scrapeMultipleDocuments, List.intercalate]
      | cons b rest2 =>
        obtain ⟨ua, ea⟩ := a
        obtain ⟨ub, eb⟩ := b
        simp only [scrapeMultipleDocuments, List.map_cons, List.intercalate,
          List.intersperse_cons_cons, List.flatten, ih]
        simp [List.intercalate]
  · intro cfg ua ea ub eb uc ec hb
    have hmid := scrapeDocument_invalid cfg eb ub hb
    simp [scrapeMultipleDocuments, hmid]

/-- C9 witness: a concrete three-URL batch whose second URL fails domain
validation, with the general record and trace clauses applied to it. -/
theorem adres_C9_witness :
    ((scrapeMultipleDocuments {}
        [(urlOk, envFailTwice), (urlBad, envAllHttpFail), (urlOk, envAllHttpFail)]).1 =
      [(urlOk, envFailTwice), (urlBad, envAllHttpFail),
        (urlOk, envAllHttpFail)].map (fun p => (scrapeDocument {} p.2 p.1).1)) ∧
    ((scrapeMultipleDocuments {}
        [(urlOk, envFailTwice), (urlBad, envAllHttpFail), (urlOk, envAllHttpFail)]).2 =
      List.intercalate [Event.sleep ({} : Config).ethical.delay_between_requests]
        ([(urlOk, envFailTwice), (urlBad, envAllHttpFail),
          (urlOk, envAllHttpFail)].map (fun p => (scrapeDocument {} p.2 p.1).2))) ∧
    scrapeMultipleDocuments {}
        [(urlOk, envFailTwice), (urlBad, envAllHttpFail), (urlOk, envAllHttpFail)] =
      ([(scrapeDocument {} envFailTwice urlOk).1,
        createErrorResponse urlBad "URL no válida o dominio no permitido" "validation_error",
        (scrapeDocument {} envAllHttpFail urlOk).1],
       (scrapeDocument {} envFailTwice urlOk).2 ++
         Event.sleep ({} : Config).ethical.delay_between_requests ::
         Event.sleep ({} : Config).ethical.delay_between_requests ::
         (scrapeDocument {} envAllHttpFail urlOk).2) :=
  ⟨adres_C9.1 {} [(urlOk, envFailTwice), (urlBad, envAllHttpFail), (urlOk, envAllHttpFail)],
   adres_C9.2.1 {} [(urlOk, envFailTwice), (urlBad, envAllHttpFail), (urlOk, envAllHttpFail)],
   adres_C9.2.2 {} urlOk envFailTwice urlBad envAllHttpFail urlOk envAllHttpFail (by decide)⟩

/-- C6: the container resolver agrees everywhere with the
specification's rule — first selector, in the fixed order, whose first
match has non-empty stripped text, with fallback to `body` — and on a
document holding both a `<main>` and a `<div class="content">` with
non-empty text it selects the `<main>` element. -/
theorem adres_C6 :
    (∀ doc : List Node, findMainContainer doc = resolveMainContainerSpec doc) ∧
    findMainContainer doc6 = some mainElem6 := by
  constructor
  · intro doc
    show findMainContainerGo doc selectors = resolveMainContainerSpec doc
    unfold resolveMainContainerSpec
    induction selectors with
    | nil => rfl
    | cons sel rest ih =>
      simp only [findMainContainerGo, List.findSome?]
      cases hs : soupFind doc sel with
      | none => simpa using ih
      | some c =>
        cases he : (strippedTexts c).isEmpty with
        | false => simp [Option.filter, he]
        | true => simpa [Option.filter, he] using ih
  · rfl

/-- C7: empty or all-whitespace text analyzes to the empty analysis,
whose classification is `documento_vacio` with confidence 0 (the
function is total, so no exception can arise). -/
theorem adres_C7 (text : String) (h : text.data.all Char.isWhitespace = true) :
    analyzeContent text = createEmptyAnalysis ∧
    (analyzeContent text).clasificacion.tipo_documento = "documento_vacio" ∧
    (analyzeContent text).clasificacion.confianza = 0 := by
  refine ⟨by simp [analyzeContent, h], ?_, ?_⟩ <;> simp [analyzeContent, h] <;> rfl

/-- C7 witness: a concrete whitespace-only text. -/
theorem adres_C7_witness :
    analyzeContent " \t\n" = createEmptyAnalysis ∧
    (analyzeContent " \t\n").clasificacion.tipo_documento = "documento_vacio" ∧
    (analyzeContent " \t\n").clasificacion.confianza = 0 :=
  adres_C7 " \t\n" (by decide)

/-- C8: keyword counting depends only on the lower-cased text
(case-insensitivity), only keywords with positive count appear in the
per-keyword result, density equals total matches divided by the
whitespace word count times 100, and counting is word-boundary-exact:
"eps" counts the keyword `eps` once while "epsilon" counts it zero
times (and matching is case-insensitive on the concrete pair too). -/
theorem adres_C8 :
    (∀ kw t1 t2 : String, lowerChars t1 = lowerChars t2 →
      countKeyword kw t1 = countKeyword kw t2) ∧
    (∀ text : String, ∀ p ∈ (findAdresKeywords text).palabras_encontradas, 0 < p.2) ∧
    (∀ text : String, (pyWords text).length ≠ 0 →
      (findAdresKeywords text).densidad_keywords =
        ((findAdresKeywords text).total_coincidencias : ℚ) /
          ((pyWords text).length : ℚ) * 100) ∧
    countKeyword "eps" "eps" = 1 ∧
    countKeyword "eps" "epsilon" = 0 ∧
    (findAdresKeywords "eps").palabras_encontradas = [("eps", 1)] ∧
    countKeyword "eps" "EPS" = 1 := by
  refine ⟨?_, ?_, ?_, by decide, by decide, by decide, by decide⟩
  · intro kw t1 t2 h
    unfold countKeyword
    rw [h]
  · intro text p hp
    simp only [findAdresKeywords, List.mem_filter, decide_eq_true_eq] at hp
    exact hp.2
  · intro text h
    simp [findAdresKeywords, h]

/-- C8 witness: the universally quantified parts applied at "eps" and at
the case pair ("EPS", "eps"). -/
theorem adres_C8_witness :
    countKeyword "eps" "EPS" = countKeyword "eps" "eps" ∧
    0 < (("eps", 1) : String × Nat).2 ∧
    (findAdresKeywords "eps").densidad_keywords =
      ((findAdresKeywords "eps").total_coincidencias : ℚ) /
        ((pyWords "eps").length : ℚ) * 100 :=
  ⟨adres_C8.1 "eps" "EPS" "eps" (by decide),
   adres_C8.2.1 "eps" ("eps", 1) (by decide),
   adres_C8.2.2.1 "eps" (by decide)⟩

/-- C1: on non-empty text the classifier follows the decision table in
priority order — density > 2 and more than 3 distinct legal terms give
`documento_normativo_adres` at 0.9; otherwise density > 1 gives
`documento_adres` at 0.7; otherwise more than 2 legal terms or an
identified norm gives `documento_legal` at 0.6; otherwise
`documento_general` at 0.5 — and any analysis with density 2.5 and 4
distinct legal terms classifies as `documento_normativo_adres` with
confidence 0.9. -/
theorem adres_C1 :
    (∀ text : String, text.data.all Char.isWhitespace = false →
      ((2 < (findAdresKeywords text).densidad_keywords ∧
          3 < (findLegalKeywords text).terminos_legales.length →
        (analyzeContent text).clasificacion.tipo_documento = "documento_normativo_adres" ∧
        (analyzeContent text).clasificacion.confianza = 9/10) ∧
       (¬(2 < (findAdresKeywords text).densidad_keywords ∧
          3 < (findLegalKeywords text).terminos_legales.length) →
        1 < (findAdresKeywords text).densidad_keywords →
        (analyzeContent text).clasificacion.tipo_documento = "documento_adres" ∧
        (analyzeContent text).clasificacion.confianza = 7/10) ∧
       (¬(2 < (findAdresKeywords text).densidad_keywords ∧
          3 < (findLegalKeywords text).terminos_legales.length) →
        ¬(1 < (findAdresKeywords text).densidad_keywords) →
        (2 < (findLegalKeywords text).terminos_legales.length ∨
          (findLegalKeywords text).normas_identificadas ≠ []) →
        (analyzeContent text).clasificacion.tipo_documento = "documento_legal" ∧
        (analyzeContent text).clasificacion.confianza = 6/10) ∧
       (¬(2 < (findAdresKeywords text).densidad_keywords ∧
          3 < (findLegalKeywords text).terminos_legales.length) →
        ¬(1 < (findAdresKeywords text).densidad_keywords) →
        ¬(2 < (findLegalKeywords text).terminos_legales.length ∨
          (findLegalKeywords text).normas_identificadas ≠ []) →
        (analyzeContent text).clasificacion.tipo_documento = "documento_general" ∧
        (analyzeContent text).clasificacion.confianza = 1/2))) ∧
    (∀ hn : Bool,
      (classifyDocument (5/2) 4 hn).tipo_documento = "documento_normativo_adres" ∧
      (classifyDocument (5/2) 4 hn).confianza = 9/10) := by
  constructor
  · intro text ht
    have hc : (analyzeContent text).clasificacion =
        classifyDocument (findAdresKeywords text).densidad_keywords
          (findLegalKeywords text).terminos_legales.length
          (!(findLegalKeywords text).normas_identificadas.isEmpty) := by
      simp [analyzeContent, ht]
    have hbool : ((!(findLegalKeywords text).normas_identificadas.isEmpty) = true) ↔
        (findLegalKeywords text).normas_identificadas ≠ [] := by
      simp [List.isEmpty_iff]
    rw [hc]
    refine ⟨?_, ?_, ?_, ?_⟩
    · intro h12
      simp [classifyDocument, if_pos h12]
    · intro hn12 h1
      simp [classifyDocument, if_neg hn12, if_pos h1]
    · intro hn12 hn1 h3
      have h3' : 2 < (findLegalKeywords text).terminos_legales.length ∨
          ((!(findLegalKeywords text).normas_identificadas.isEmpty) = true) :=
        h3.imp id hbool.mpr
      simp only [classifyDocument]
      rw [if_neg hn12, if_neg hn1, if_pos h3']
      exact ⟨rfl, rfl⟩
    · intro hn12 hn1 hn3
      have hn3' : ¬(2 < (findLegalKeywords text).terminos_legales.length ∨
          ((!(findLegalKeywords text).normas_identificadas.isEmpty) = true)) :=
        fun h => hn3 (h.imp id hbool.mp)
      simp only [classifyDocument]
      rw [if_neg hn12, if_neg hn1, if_neg hn3']
      exact ⟨rfl, rfl⟩
  · intro hn
    constructor <;> simp [classifyDocument] <;> norm_num

/-- C1 witness: the text "adres adres" is non-empty, has density 100 and
no legal terms, so the second branch of the table applies and the
classification is `documento_adres` at 0.7. -/
theorem adres_C1_witness :
    (analyzeContent "adres adres").clasificacion.tipo_documento = "documento_adres" ∧
    (analyzeContent "adres adres").clasificacion.confianza = 7/10 := by
  have h := (adres_C1.1 "adres adres" (by decide)).2.1
  have htot : (findAdresKeywords "adres adres").total_coincidencias = 2 := by decide
  have hwc : (pyWords "adres adres").length = 2 := by decide
  have hl : (findLegalKeywords "adres adres").terminos_legales.length = 0 := by decide
  have hd : (findAdresKeywords "adres adres").densidad_keywords = 100 := by
    have hform : (findAdresKeywords "adres adres").densidad_keywords =
        ((findAdresKeywords "adres adres").total_coincidencias : ℚ) /
          ((pyWords "adres adres").length : ℚ) * 100 := by
      simp [findAdresKeywords, hwc]
    rw [hform, htot, hwc]
    norm_num
  exact h (by rw [hl]; omega) (by rw [hd]; norm_num)

/-- C10: for every input text the analyzer's confidence is one of the
five constants 0, 0.5, 0.6, 0.7, 0.9 — hence always within [0, 1] — and
it is 0 exactly when the text is empty or all-whitespace. -/
theorem adres_C10 (text : String) :
    (0 ≤ (analyzeContent text).clasificacion.confianza ∧
     (analyzeContent text).clasificacion.confianza ≤ 1) ∧
    ((analyzeContent text).clasificacion.confianza = 0 ∨
     (analyzeContent text).clasificacion.confianza = 1/2 ∨
     (analyzeContent text).clasificacion.confianza = 6/10 ∨
     (analyzeContent text).clasificacion.confianza = 7/10 ∨
     (analyzeContent text).clasificacion.confianza = 9/10) ∧
    ((analyzeContent text).clasificacion.confianza = 0 ↔
      text.data.all Char.isWhitespace = true) := by
  have main : ∀ (d : ℚ) (l : Nat) (b : Bool),
      (classifyDocument d l b).confianza = 1/2 ∨
      (classifyDocument d l b).confianza = 6/10 ∨
      (classifyDocument d l b).confianza = 7/10 ∨
      (classifyDocument d l b).confianza = 9/10 := by
    intro d l b
    simp only [classifyDocument]
    split_ifs <;> norm_num
  by_cases h : text.data.all Char.isWhitespace = true
  · have hc : (analyzeContent text).clasificacion = emptyClasificacion := by
      simp [analyzeContent, h, createEmptyAnalysis]
    rw [hc]
    refine ⟨⟨le_refl 0, by norm_num [emptyClasificacion]⟩, Or.inl rfl, by simp [h, emptyClasificacion]⟩
  · have hc : (analyzeContent text).clasificacion =
        classifyDocument (findAdresKeywords text).densidad_keywords
          (findLegalKeywords text).terminos_legales.length
          (!(findLegalKeywords text).normas_identificadas.isEmpty) := by
      simp [analyzeContent, h]
    rw [hc]
    rcases main (findAdresKeywords text).densidad_keywords
        (findLegalKeywords text).terminos_legales.length
        (!(findLegalKeywords text).normas_identificadas.isEmpty) with h1 | h1 | h1 | h1 <;>
      rw [h1] <;>
      exact ⟨⟨by norm_num, by norm_num⟩, by norm_num,
        ⟨fun h0 => absurd h0 (by norm_num), fun hw => absurd hw h⟩⟩

end AdresScraper
